import Mathlib

/-
  Verification of the node-devops-fargate status service (server/server.js).

  The server is a four-route Express application.  We embed it shallowly:

  * JSON values are the inductive type Json.
  * The ambient process state read by the handlers (wall clock, process
    uptime, memory statistics, platform, runtime version, environment
    variables) is the structure ProcessEnv.  The wall clock nowMs is the
    millisecond reading taken by new Date() at the instant of the call, and
    uptimeMs is the millisecond reading behind process.uptime(), which the
    runtime reports as the non-negative float uptimeMs / 1000.
  * Each route handler (lines 9-46 of server.js) becomes a pure function
    from ProcessEnv (and, for the echo route, the request body) to a
    Response, and serve is the route table.
  * The body-parsing middleware express.json() (line 6 of server.js) is
    modelled by resolveEchoBody: with no body or a body whose content type
    is not JSON the parsed body defaults to the empty object; a body
    declared as JSON that fails to parse, or whose top-level value is not
    an object or array (the default strict mode of express.json), is
    rejected with the 400 response produced by the Express error handler.
    The field parsedBody of a request is the outcome of JSON.parse on the
    raw body text: none when the text is not syntactically valid JSON.
  * Date.prototype.toISOString is implemented with the ECMAScript calendar
    arithmetic (YearFromTime as the greatest year whose first day is not
    after the given day, MonthFromTime by the month-length table), for
    times up to year 9999, which is the range printed with a four-digit
    year.
-/

set_option maxHeartbeats 1600000

/- ## Gregorian calendar arithmetic (ECMAScript Date semantics) -/

/-- Leap-year test, as in the ECMAScript DaysInYear specification. -/
def isLeap (y : Nat) : Bool := y % 4 == 0 && (y % 100 != 0 || y % 400 == 0)

/-- Number of days in year y. -/
def daysInYear (y : Nat) : Nat := if isLeap y then 366 else 365

/-- Day number (days since 1970-01-01) of the first instant of year y,
for y at least 1970; the ECMAScript DayFromYear formula. -/
def dayFromYear (y : Nat) : Nat :=
  365 * (y - 1970) + (y - 1969) / 4 - (y - 1901) / 100 + (y - 1601) / 400

theorem daysInYear_bounds (y : Nat) : 365 ≤ daysInYear y ∧ daysInYear y ≤ 366 := by
  unfold daysInYear; split <;> omega

theorem dayFromYear_succ (y : Nat) (h : 1970 ≤ y) :
    dayFromYear (y + 1) = dayFromYear y + daysInYear y := by
  unfold dayFromYear daysInYear isLeap
  split
  case isTrue hl =>
    simp only [Bool.and_eq_true, beq_iff_eq, Bool.or_eq_true, bne_iff_ne] at hl
    omega
  case isFalse hl =>
    simp only [Bool.and_eq_true, beq_iff_eq, Bool.or_eq_true, bne_iff_ne] at hl
    push_neg at hl
    omega

theorem dayFromYear_mono (r s : Nat) (h0 : 1970 ≤ r) (h : r ≤ s) :
    dayFromYear r ≤ dayFromYear s := by
  induction s, h using Nat.le_induction with
  | base => exact Nat.le_refl _
  | succ n hn ih =>
    have hs := dayFromYear_succ n (Nat.le_trans h0 hn)
    have hb := daysInYear_bounds n
    omega

/-- Resolve a day count into a year and a day within that year, starting the
search at year y; fuel bounds the number of years scanned. -/
def yearAndDay : Nat → Nat → Nat → Nat × Nat
  | 0, y, d => (y, d)
  | fuel + 1, y, d =>
    if d < daysInYear y then (y, d) else yearAndDay fuel (y + 1) (d - daysInYear y)

theorem yearAndDay_correct (fuel : Nat) :
    ∀ y d, 1970 ≤ y → d < 365 * fuel →
      dayFromYear (yearAndDay fuel y d).1 + (yearAndDay fuel y d).2 = dayFromYear y + d ∧
      (yearAndDay fuel y d).2 < daysInYear (yearAndDay fuel y d).1 ∧
      1970 ≤ (yearAndDay fuel y d).1 := by
  induction fuel with
  | zero => intro y d hy hd; exact absurd hd (by simp)
  | succ n ih =>
    intro y d hy hd
    unfold yearAndDay
    split
    case isTrue hlt => exact ⟨rfl, hlt, hy⟩
    case isFalse hge =>
      have hb := daysInYear_bounds y
      have h2 : d - daysInYear y < 365 * n := by omega
      have hrec := ih (y + 1) (d - daysInYear y) (by omega) h2
      have hs := dayFromYear_succ y hy
      omega

/-- Month (1-12) and day of month (1-31) from a 0-based day within the year;
f is 1 in a leap year and 0 otherwise.  This is the ECMAScript MonthFromTime
and DateFromTime table. -/
def monthAndDayAux (f : Nat) (d : Nat) : Nat × Nat :=
  if d < 31 then (1, d + 1)
  else if d < 59 + f then (2, d - 30)
  else if d < 90 + f then (3, d - 58 - f)
  else if d < 120 + f then (4, d - 89 - f)
  else if d < 151 + f then (5, d - 119 - f)
  else if d < 181 + f then (6, d - 150 - f)
  else if d < 212 + f then (7, d - 180 - f)
  else if d < 243 + f then (8, d - 211 - f)
  else if d < 273 + f then (9, d - 242 - f)
  else if d < 304 + f then (10, d - 272 - f)
  else if d < 334 + f then (11, d - 303 - f)
  else (12, d - 333 - f)

/-- First 0-based day within the year of month m; f as in monthAndDayAux. -/
def monthStartAux (f : Nat) (m : Nat) : Nat :=
  match m with
  | 1 => 0
  | 2 => 31
  | 3 => 59 + f
  | 4 => 90 + f
  | 5 => 120 + f
  | 6 => 151 + f
  | 7 => 181 + f
  | 8 => 212 + f
  | 9 => 243 + f
  | 10 => 273 + f
  | 11 => 304 + f
  | 12 => 334 + f
  | _ => 0

theorem monthAndDayAux_correct (f d m dd : Nat) (hf : f ≤ 1) (h : d < 365 + f)
    (he : monthAndDayAux f d = (m, dd)) :
    monthStartAux f m + dd - 1 = d ∧ 1 ≤ m ∧ m ≤ 12 ∧ 1 ≤ dd ∧ dd ≤ 31 := by
  unfold monthAndDayAux at he
  by_cases h1 : d < 31
  · rw [if_pos h1] at he
    injection he with a b; subst a; subst b; simp only [monthStartAux]; omega
  · rw [if_neg h1] at he
    by_cases h2 : d < 59 + f
    · rw [if_pos h2] at he
      injection he with a b; subst a; subst b; simp only [monthStartAux]; omega
    · rw [if_neg h2] at he
      by_cases h3 : d < 90 + f
      · rw [if_pos h3] at he
        injection he with a b; subst a; subst b; simp only [monthStartAux]; omega
      · rw [if_neg h3] at he
        by_cases h4 : d < 120 + f
        · rw [if_pos h4] at he
          injection he with a b; subst a; subst b; simp only [monthStartAux]; omega
        · rw [if_neg h4] at he
          by_cases h5 : d < 151 + f
          · rw [if_pos h5] at he
            injection he with a b; subst a; subst b; simp only [monthStartAux]; omega
          · rw [if_neg h5] at he
            by_cases h6 : d < 181 + f
            · rw [if_pos h6] at he
              injection he with a b; subst a; subst b; simp only [monthStartAux]; omega
            · rw [if_neg h6] at he
              by_cases h7 : d < 212 + f
              · rw [if_pos h7] at he
                injection he with a b; subst a; subst b; simp only [monthStartAux]; omega
              · rw [if_neg h7] at he
                by_cases h8 : d < 243 + f
                · rw [if_pos h8] at he
                  injection he with a b; subst a; subst b; simp only [monthStartAux]; omega
                · rw [if_neg h8] at he
                  by_cases h9 : d < 273 + f
                  · rw [if_pos h9] at he
                    injection he with a b; subst a; subst b; simp only [monthStartAux]; omega
                  · rw [if_neg h9] at he
                    by_cases h10 : d < 304 + f
                    · rw [if_pos h10] at he
                      injection he with a b; subst a; subst b
                      simp only [monthStartAux]; omega
                    · rw [if_neg h10] at he
                      by_cases h11 : d < 334 + f
                      · rw [if_pos h11] at he
                        injection he with a b; subst a; subst b
                        simp only [monthStartAux]; omega
                      · rw [if_neg h11] at he
                        injection he with a b; subst a; subst b
                        simp only [monthStartAux]; omega

/-- Gregorian date (year, month, day) of a day count since 1970-01-01. -/
def civilFromDays (z : Nat) : Nat × Nat × Nat :=
  let yd := yearAndDay (z / 365 + 1) 1970 z
  let md := monthAndDayAux (if isLeap yd.1 then 1 else 0) yd.2
  (yd.1, md.1, md.2)

/-- Day count since 1970-01-01 of a Gregorian date (the ECMAScript MakeDay). -/
def daysFromCivil (y m day : Nat) : Nat :=
  dayFromYear y + monthStartAux (if isLeap y then 1 else 0) m + day - 1

theorem dayFromYear_10000 : dayFromYear 10000 = 2932897 := by decide

theorem civilFromDays_correct (z : Nat) (hz : z ≤ 2932896) :
    daysFromCivil (civilFromDays z).1 (civilFromDays z).2.1 (civilFromDays z).2.2 = z ∧
    1970 ≤ (civilFromDays z).1 ∧ (civilFromDays z).1 ≤ 9999 ∧
    1 ≤ (civilFromDays z).2.1 ∧ (civilFromDays z).2.1 ≤ 12 ∧
    1 ≤ (civilFromDays z).2.2 ∧ (civilFromDays z).2.2 ≤ 31 := by
  have hfuel : z < 365 * (z / 365 + 1) := by omega
  have hyd := yearAndDay_correct (z / 365 + 1) 1970 z (Nat.le_refl _) hfuel
  set yd := yearAndDay (z / 365 + 1) 1970 z with hyddef
  obtain ⟨hsum, hlt, hy0⟩ := hyd
  have hdy1970 : dayFromYear 1970 = 0 := by decide
  have hf : (if isLeap yd.1 then 1 else 0) ≤ 1 := by split <;> omega
  have hdlt : yd.2 < 365 + (if isLeap yd.1 then 1 else 0) := by
    have : daysInYear yd.1 = 365 + (if isLeap yd.1 then 1 else 0) := by
      unfold daysInYear; split <;> simp
    omega
  have hmd := monthAndDayAux_correct (if isLeap yd.1 then 1 else 0) yd.2
    (monthAndDayAux (if isLeap yd.1 then 1 else 0) yd.2).1
    (monthAndDayAux (if isLeap yd.1 then 1 else 0) yd.2).2 hf hdlt rfl
  have hy9999 : yd.1 ≤ 9999 := by
    by_contra hcon
    push_neg at hcon
    have := dayFromYear_mono 10000 yd.1 (by omega) (by omega)
    rw [dayFromYear_10000] at this
    omega
  unfold civilFromDays
  rw [← hyddef]
  unfold daysFromCivil
  simp only []
  constructor
  · omega
  · exact ⟨hy0, hy9999, hmd.2.1, hmd.2.2.1, hmd.2.2.2.1, hmd.2.2.2.2⟩

/- ## Rendering and parsing of ISO 8601 timestamps -/

/-- Numeric value of a decimal digit character. -/
def digitVal (c : Char) : Nat := c.toNat - 48

theorem digitChar_isDigit (n : Nat) : (Nat.digitChar (n % 10)).isDigit = true :=
  (by decide : ∀ k, k < 10 → (Nat.digitChar k).isDigit = true) (n % 10) (Nat.mod_lt n (by omega))

theorem digitVal_digitChar (n : Nat) : digitVal (Nat.digitChar (n % 10)) = n % 10 :=
  (by decide : ∀ k, k < 10 → digitVal (Nat.digitChar k) = k) (n % 10) (Nat.mod_lt n (by omega))

/-- Character list YYYY-MM-DDTHH:MM:SS.FFFZ for the given components. -/
def isoOf (y mo dd hh mi ss ff : Nat) : List Char :=
  [Nat.digitChar (y / 1000 % 10), Nat.digitChar (y / 100 % 10),
   Nat.digitChar (y / 10 % 10), Nat.digitChar (y % 10), '-',
   Nat.digitChar (mo / 10 % 10), Nat.digitChar (mo % 10), '-',
   Nat.digitChar (dd / 10 % 10), Nat.digitChar (dd % 10), 'T',
   Nat.digitChar (hh / 10 % 10), Nat.digitChar (hh % 10), ':',
   Nat.digitChar (mi / 10 % 10), Nat.digitChar (mi % 10), ':',
   Nat.digitChar (ss / 10 % 10), Nat.digitChar (ss % 10), '.',
   Nat.digitChar (ff / 100 % 10), Nat.digitChar (ff / 10 % 10), Nat.digitChar (ff % 10), 'Z']

/-- Characters printed by Date.toISOString for a clock reading of ms
milliseconds since the epoch. -/
def isoChars (ms : Nat) : List Char :=
  isoOf (civilFromDays (ms / 86400000)).1 (civilFromDays (ms / 86400000)).2.1
    (civilFromDays (ms / 86400000)).2.2
    (ms / 3600000 % 24) (ms / 60000 % 60) (ms / 1000 % 60) (ms % 1000)

/-- The string new Date(ms).toISOString() of the embedded clock reading. -/
def toISOString (ms : Nat) : String := String.mk (isoChars ms)

/-- Parser for the fixed-width ISO 8601 date-time format produced by
Date.toISOString, returning the represented millisecond reading. -/
def parseIsoChars : List Char → Option Nat
  | [y1, y2, y3, y4, '-', a1, a2, '-', b1, b2, 'T', c1, c2, ':', d1, d2, ':', e1, e2, '.',
     g1, g2, g3, 'Z'] =>
    if y1.isDigit && y2.isDigit && y3.isDigit && y4.isDigit && a1.isDigit && a2.isDigit &&
       b1.isDigit && b2.isDigit && c1.isDigit && c2.isDigit && d1.isDigit && d2.isDigit &&
       e1.isDigit && e2.isDigit && g1.isDigit && g2.isDigit && g3.isDigit then
      let y := 1000 * digitVal y1 + 100 * digitVal y2 + 10 * digitVal y3 + digitVal y4
      let mo := 10 * digitVal a1 + digitVal a2
      let dd := 10 * digitVal b1 + digitVal b2
      let hh := 10 * digitVal c1 + digitVal c2
      let mi := 10 * digitVal d1 + digitVal d2
      let ss := 10 * digitVal e1 + digitVal e2
      let ff := 100 * digitVal g1 + 10 * digitVal g2 + digitVal g3
      if 1970 ≤ y ∧ 1 ≤ mo ∧ mo ≤ 12 ∧ 1 ≤ dd ∧ dd ≤ 31 ∧ hh ≤ 23 ∧ mi ≤ 59 ∧ ss ≤ 59 then
        some (daysFromCivil y mo dd * 86400000 + hh * 3600000 + mi * 60000 + ss * 1000 + ff)
      else none
    else none
  | _ => none

/-- Parser on strings. -/
def parseIsoTimestamp (t : String) : Option Nat := parseIsoChars t.data

theorem parse_isoOf (y mo dd hh mi ss ff : Nat)
    (hy0 : 1970 ≤ y) (hy1 : y ≤ 9999) (hmo0 : 1 ≤ mo) (hmo1 : mo ≤ 12)
    (hdd0 : 1 ≤ dd) (hdd1 : dd ≤ 31) (hhh : hh ≤ 23) (hmi : mi ≤ 59) (hss : ss ≤ 59)
    (hff : ff ≤ 999) :
    parseIsoChars (isoOf y mo dd hh mi ss ff) =
      some (daysFromCivil y mo dd * 86400000 + hh * 3600000 + mi * 60000 + ss * 1000 + ff) := by
  unfold isoOf parseIsoChars
  simp only [digitChar_isDigit, Bool.and_self, if_true]
  simp only [digitVal_digitChar]
  have e1 : 1000 * (y / 1000 % 10) + 100 * (y / 100 % 10) + 10 * (y / 10 % 10) + y % 10 = y := by
    omega
  have e2 : 10 * (mo / 10 % 10) + mo % 10 = mo := by omega
  have e3 : 10 * (dd / 10 % 10) + dd % 10 = dd := by omega
  have e4 : 10 * (hh / 10 % 10) + hh % 10 = hh := by omega
  have e5 : 10 * (mi / 10 % 10) + mi % 10 = mi := by omega
  have e6 : 10 * (ss / 10 % 10) + ss % 10 = ss := by omega
  have e7 : 100 * (ff / 100 % 10) + 10 * (ff / 10 % 10) + ff % 10 = ff := by omega
  rw [e1, e2, e3, e4, e5, e6, e7]
  rw [if_pos]
  exact ⟨hy0, hmo0, hmo1, hdd0, hdd1, hhh, hmi, hss⟩

/-- Round trip: parsing the rendered ISO timestamp recovers the clock
reading, for any reading below year 10000 (the four-digit-year range of the
format). -/
theorem parseIso_toISOString (ms : Nat) (h : ms < 253402300800000) :
    parseIsoTimestamp (toISOString ms) = some ms := by
  unfold toISOString parseIsoTimestamp
  show parseIsoChars (isoChars ms) = some ms
  unfold isoChars
  have hz : ms / 86400000 ≤ 2932896 := by omega
  have hc := civilFromDays_correct (ms / 86400000) hz
  obtain ⟨hround, hy0, hy1, hmo0, hmo1, hdd0, hdd1⟩ := hc
  rw [parse_isoOf (civilFromDays (ms / 86400000)).1 (civilFromDays (ms / 86400000)).2.1
    (civilFromDays (ms / 86400000)).2.2 (ms / 3600000 % 24) (ms / 60000 % 60)
    (ms / 1000 % 60) (ms % 1000) hy0 hy1 hmo0 hmo1 hdd0 hdd1
    (by omega) (by omega) (by omega) (by omega)]
  rw [hround]
  congr 1
  omega

/- ## The JSON data model and the embedded server -/

/-- JSON values (the bodies exchanged by the service). -/
inductive Json where
  | null : Json
  | bool (b : Bool) : Json
  | num (q : Rat) : Json
  | str (s : String) : Json
  | arr (elems : List Json) : Json
  | obj (fields : List (String × Json)) : Json

/-- Lookup of a key in an object field list (first match wins). -/
def getFieldList : List (String × Json) → String → Option Json
  | [], _ => none
  | pair :: rest, key => if pair.1 = key then some pair.2 else getFieldList rest key

/-- Field access on a JSON value: some value for a present key of an object,
none otherwise. -/
def getField (j : Json) (key : String) : Option Json :=
  match j with
  | Json.obj fields => getFieldList fields key
  | _ => none

/-- The ambient process state read by the handlers at the instant of a call.
nowMs is the millisecond reading of new Date(); uptimeMs is the millisecond
reading behind process.uptime(), reported by the runtime as the non-negative
float uptimeMs / 1000; envVars is process.env. -/
structure ProcessEnv where
  nowMs : Nat
  uptimeMs : Nat
  memoryUsage : Json
  platform : String
  nodeVersion : String
  envVars : String → Option String

/-- An HTTP response: status code and JSON body. -/
structure Response where
  status : Nat
  body : Json

/-- The requests the four routes of server.js receive.  A POST /api/echo
request records whether a body is present, whether its content type is JSON,
and the outcome of JSON.parse on the raw body text (none on a syntax
error). -/
inductive Request where
  | getHealth : Request
  | getRoot : Request
  | getInfo : Request
  | postEcho (hasBody : Bool) (isJsonContentType : Bool) (parsedBody : Option Json) : Request

/-- The JavaScript expression v OR d for string environment values: the
default is used when the variable is unset or set to the empty string (which
is falsy). -/
def jsOrDefault (v : Option String) (d : String) : String :=
  match v with
  | none => d
  | some s => if s = "" then d else s

/-- Line 3 of server.js: const PORT = process.env.PORT OR 3000, evaluated
once at module load; the value is the string from the environment, or the
number 3000 when the variable is unset or empty. -/
def configuredPort (envVars : String → Option String) : Json :=
  match envVars ("PORT") with
  | none => Json.num 3000
  | some s => if s = "" then Json.num 3000 else Json.str s

/-- Lines 9-15 of server.js: the GET /health handler. -/
def healthHandler (p : ProcessEnv) : Response :=
  Response.mk 200 (Json.obj [
    ("status", Json.str ("healthy")),
    ("timestamp", Json.str (toISOString p.nowMs)),
    ("service", Json.str ("node-devops-server"))])

/-- Lines 18-25 of server.js: the GET / handler.  Note that it reads
process.env.NODE_ENV at request time. -/
def rootHandler (p : ProcessEnv) : Response :=
  Response.mk 200 (Json.obj [
    ("message", Json.str ("Welcome to Node.js DevOps Server")),
    ("version", Json.str ("1.0.0")),
    ("environment", Json.str (jsOrDefault (p.envVars ("NODE_ENV")) ("development"))),
    ("timestamp", Json.str (toISOString p.nowMs))])

/-- Lines 28-37 of server.js: the GET /api/info handler. -/
def infoHandler (p : ProcessEnv) : Response :=
  Response.mk 200 (Json.obj [
    ("service", Json.str ("node-devops-server")),
    ("version", Json.str ("1.0.0")),
    ("uptime", Json.num ((p.uptimeMs : Rat) / 1000)),
    ("memory", p.memoryUsage),
    ("platform", Json.str p.platform),
    ("nodeVersion", Json.str p.nodeVersion)])

/-- Lines 40-46 of server.js: the POST /api/echo handler, applied to the
body resolved by the middleware. -/
def echoHandler (p : ProcessEnv) (body : Json) : Response :=
  Response.mk 200 (Json.obj [
    ("message", Json.str ("Echo endpoint")),
    ("received", body),
    ("timestamp", Json.str (toISOString p.nowMs))])

/-- The 400 response produced by the Express error handler when
express.json() raises a parse error. -/
def badRequest : Response := Response.mk 400 (Json.str ("Bad Request"))

/-- The default strict mode of express.json(): only a top-level object or
array is accepted; any other top-level JSON value raises a parse error. -/
def jsonStrictOk : Json → Bool
  | Json.obj _ => true
  | Json.arr _ => true
  | _ => false

/-- Whether the middleware accepts the outcome of JSON.parse on a body
declared as JSON. -/
def strictBodyOk : Option Json → Bool
  | none => false
  | some v => jsonStrictOk v

/-- Line 6 of server.js, app.use(express.json()): with no body, or a body
whose content type is not JSON, req.body defaults to the empty object; a
body declared as JSON is accepted exactly when JSON.parse succeeds and the
result passes the strict-mode check, and otherwise the 400 error response is
produced before any handler runs. -/
def resolveEchoBody (hasBody isJsonContentType : Bool) (parsed : Option Json) :
    Except Response Json :=
  if hasBody = false then Except.ok (Json.obj [])
  else if isJsonContentType = false then Except.ok (Json.obj [])
  else
    match parsed with
    | none => Except.error badRequest
    | some v => if jsonStrictOk v then Except.ok v else Except.error badRequest

/-- The route table of server.js: dispatch a request to its handler. -/
def serve (p : ProcessEnv) : Request → Response
  | Request.getHealth => healthHandler p
  | Request.getRoot => rootHandler p
  | Request.getInfo => infoHandler p
  | Request.postEcho hasBody ct parsed =>
    match resolveEchoBody hasBody ct parsed with
    | Except.ok body => echoHandler p body
    | Except.error e => e

/-- Serving one request as a step on the process state: the response is
emitted and the state is what the handlers left behind.  The handlers of
server.js assign to no binding outside their response literal, so the state
component is the input state itself. -/
def handle (p : ProcessEnv) (req : Request) : Response × ProcessEnv := (serve p req, p)

/-- A sample process state: clock at the epoch, no environment variables. -/
def envZero : ProcessEnv :=
  ProcessEnv.mk 0 0 (Json.obj []) ("linux") ("v18.17.0") (fun _ => none)

/-- A sample process state identical to envZero except that NODE_ENV is set
to production. -/
def envProd : ProcessEnv :=
  ProcessEnv.mk 0 0 (Json.obj []) ("linux") ("v18.17.0")
    (fun k => if k = "NODE_ENV" then some ("production") else none)

/- ## The claims -/

/-- Claim C1, amended: for every JSON value v whose top level is an object
or an array, POST /api/echo with v as the declared-JSON body answers HTTP
200 with received deep-equal to v, message equal to the fixed string Echo
endpoint, and a timestamp field present.  (The original claim quantified
over every syntactically valid JSON value; the default strict mode of
express.json rejects top-level primitives with HTTP 400, see the
counterexample.) -/
theorem C1_echo_reflects_objects_and_arrays (p : ProcessEnv) (v : Json)
    (hv : jsonStrictOk v = true) :
    (serve p (Request.postEcho true true (some v))).status = 200 ∧
    getField (serve p (Request.postEcho true true (some v))).body ("received") = some v ∧
    getField (serve p (Request.postEcho true true (some v))).body ("message") =
      some (Json.str ("Echo endpoint")) ∧
    (getField (serve p (Request.postEcho true true (some v))).body ("timestamp")).isSome =
      true := by
  have hres : resolveEchoBody true true (some v) = Except.ok v := by
    simp [resolveEchoBody, hv]
  have hserve : serve p (Request.postEcho true true (some v)) = echoHandler p v := by
    show (match resolveEchoBody true true (some v) with
      | Except.ok body => echoHandler p body
      | Except.error e => e) = echoHandler p v
    rw [hres]
  rw [hserve]
  exact ⟨rfl, rfl, rfl, rfl⟩

/-- Claim C1, witness at the concrete scenario of the specification: the
body is the object mapping test to hello. -/
theorem C1_witness :
    jsonStrictOk (Json.obj [("test", Json.str ("hello"))]) = true ∧
    ((serve envZero (Request.postEcho true true
        (some (Json.obj [("test", Json.str ("hello"))])))).status = 200 ∧
     getField (serve envZero (Request.postEcho true true
        (some (Json.obj [("test", Json.str ("hello"))])))).body ("received") =
       some (Json.obj [("test", Json.str ("hello"))]) ∧
     getField (serve envZero (Request.postEcho true true
        (some (Json.obj [("test", Json.str ("hello"))])))).body ("message") =
       some (Json.str ("Echo endpoint")) ∧
     (getField (serve envZero (Request.postEcho true true
        (some (Json.obj [("test", Json.str ("hello"))])))).body ("timestamp")).isSome = true) :=
  ⟨rfl, C1_echo_reflects_objects_and_arrays envZero (Json.obj [("test", Json.str ("hello"))]) rfl⟩

/-- Claim C1, counterexample to the original wording: the number 5 is a
syntactically valid JSON value, yet POST /api/echo with it as the
declared-JSON body answers HTTP 400, not 200, because the default strict
mode of express.json accepts only top-level objects and arrays. -/
theorem C1_counterexample :
    (serve envZero (Request.postEcho true true (some (Json.num 5)))).status = 400 ∧
    ¬ (serve envZero (Request.postEcho true true (some (Json.num 5)))).status = 200 := by
  exact ⟨rfl, by decide⟩

/-- Claim C2: every GET /health call answers HTTP 200 with status field
healthy and service field node-devops-server, whatever the process state;
the status field never takes any other value. -/
theorem C2_health_always_healthy (p : ProcessEnv) :
    (serve p Request.getHealth).status = 200 ∧
    getField (serve p Request.getHealth).body ("status") = some (Json.str ("healthy")) ∧
    getField (serve p Request.getHealth).body ("service") =
      some (Json.str ("node-devops-server")) :=
  ⟨rfl, rfl, rfl⟩

/-- Claim C3: a POST /api/echo body declared as JSON on which JSON.parse
fails (such as the literal text not-json) is answered with an HTTP
400-class response, never 200; the total function serve always produces a
response, so the error is never fatal to the process. -/
theorem C3_malformed_json_body_rejected (p : ProcessEnv) :
    400 ≤ (serve p (Request.postEcho true true none)).status ∧
    (serve p (Request.postEcho true true none)).status < 500 ∧
    (serve p (Request.postEcho true true none)).status ≠ 200 := by
  have h : (serve p (Request.postEcho true true none)).status = 400 := rfl
  refine ⟨?_, ?_, ?_⟩ <;> omega

/-- Claim C4, counterexample to the original wording: the GET / handler of
server.js re-reads process.env.NODE_ENV on every request (line 22), so two
process states that differ only in NODE_ENV produce different GET /
responses; the environment is not read exactly once at process start. -/
theorem C4_counterexample :
    getField (serve envZero Request.getRoot).body ("environment") =
      some (Json.str ("development")) ∧
    getField (serve envProd Request.getRoot).body ("environment") =
      some (Json.str ("production")) ∧
    serve envZero Request.getRoot ≠ serve envProd Request.getRoot := by
  refine ⟨rfl, rfl, fun h => ?_⟩
  have ha : getField (serve envZero Request.getRoot).body ("environment") =
      some (Json.str ("development")) := rfl
  rw [h] at ha
  have hb : getField (serve envProd Request.getRoot).body ("environment") =
      some (Json.str ("production")) := rfl
  rw [hb] at ha
  injection ha with h1
  injection h1 with h2
  exact absurd h2 (by decide)

/-- Claim C4, amended: the listening port is read from the environment once
at module load with default 3000 when PORT is unset; the environment-name
label defaults to development when NODE_ENV is unset, but is re-read from
the environment on every GET / request, so responses depend on the
environment exactly through the value of NODE_ENV at the instant of the
call (no handler reads any other environment variable, in particular not
PORT). -/
theorem C4_amended_port_once_node_env_per_request (p₁ p₂ : ProcessEnv) (req : Request)
    (hnow : p₁.nowMs = p₂.nowMs) (hup : p₁.uptimeMs = p₂.uptimeMs)
    (hmem : p₁.memoryUsage = p₂.memoryUsage) (hplat : p₁.platform = p₂.platform)
    (hver : p₁.nodeVersion = p₂.nodeVersion)
    (henv : p₁.envVars ("NODE_ENV") = p₂.envVars ("NODE_ENV")) :
    configuredPort (fun _ => none) = Json.num 3000 ∧
    (p₁.envVars ("NODE_ENV") = none →
      getField (serve p₁ Request.getRoot).body ("environment") =
        some (Json.str ("development"))) ∧
    serve p₁ req = serve p₂ req := by
  refine ⟨rfl, ?_, ?_⟩
  · intro h0
    show some (Json.str (jsOrDefault (p₁.envVars ("NODE_ENV")) ("development"))) =
      some (Json.str ("development"))
    rw [h0]
    rfl
  · cases req with
    | getHealth => unfold serve healthHandler; rw [hnow]
    | getRoot => unfold serve rootHandler; rw [hnow, henv]
    | getInfo => unfold serve infoHandler; rw [hup, hmem, hplat, hver]
    | postEcho hb ct pb => unfold serve echoHandler; rw [hnow]

/-- Claim C4, witness: the amended statement applied to two copies of the
same concrete process state. -/
theorem C4_witness :
    envZero.envVars ("NODE_ENV") = envZero.envVars ("NODE_ENV") ∧
    (configuredPort (fun _ => none) = Json.num 3000 ∧
     (envZero.envVars ("NODE_ENV") = none →
       getField (serve envZero Request.getRoot).body ("environment") =
         some (Json.str ("development"))) ∧
     serve envZero Request.getHealth = serve envZero Request.getHealth) :=
  ⟨rfl, C4_amended_port_once_node_env_per_request envZero envZero Request.getHealth
    rfl rfl rfl rfl rfl rfl⟩

/-- Claim C5: the uptime field of GET /api/info is a non-negative number,
and across two calls made in sequence on the same process (so that the
monotone process-uptime counter has not decreased) the second value is at
least the first. -/
theorem C5_uptime_nonneg_monotone (p₁ p₂ : ProcessEnv) (h : p₁.uptimeMs ≤ p₂.uptimeMs) :
    ∃ q₁ q₂ : Rat,
      getField (serve p₁ Request.getInfo).body ("uptime") = some (Json.num q₁) ∧
      getField (serve p₂ Request.getInfo).body ("uptime") = some (Json.num q₂) ∧
      0 ≤ q₁ ∧ 0 ≤ q₂ ∧ q₁ ≤ q₂ := by
  refine ⟨(p₁.uptimeMs : Rat) / 1000, (p₂.uptimeMs : Rat) / 1000, rfl, rfl, ?_, ?_, ?_⟩
  · positivity
  · positivity
  · have hc : (p₁.uptimeMs : Rat) ≤ (p₂.uptimeMs : Rat) := by exact_mod_cast h
    have h1000 : (0 : Rat) < 1000 := by norm_num
    exact div_le_div_iff_of_pos_right h1000 |>.mpr hc

/-- Claim C5, witness at a concrete process state. -/
theorem C5_witness :
    envZero.uptimeMs ≤ envZero.uptimeMs ∧
    (∃ q₁ q₂ : Rat,
      getField (serve envZero Request.getInfo).body ("uptime") = some (Json.num q₁) ∧
      getField (serve envZero Request.getInfo).body ("uptime") = some (Json.num q₂) ∧
      0 ≤ q₁ ∧ 0 ≤ q₂ ∧ q₁ ≤ q₂) :=
  ⟨Nat.le_refl _, C5_uptime_nonneg_monotone envZero envZero (Nat.le_refl _)⟩

/-- Claim C6: every GET / response carries a timestamp string that parses
as a valid ISO 8601 date-time denoting the clock reading of the call, and
every GET /api/info response carries the uptime-derived field; across two
calls made in sequence (the wall-clock and uptime readings of the second
call being no smaller, and the clock within the four-digit-year range of
the format), the parsed timestamp and the uptime value are
non-decreasing. -/
theorem C6_timestamps_parse_and_nondecrease (p₁ p₂ : ProcessEnv)
    (hb₁ : p₁.nowMs < 253402300800000) (hb₂ : p₂.nowMs < 253402300800000)
    (hseq : p₁.nowMs ≤ p₂.nowMs) (hup : p₁.uptimeMs ≤ p₂.uptimeMs) :
    ∃ t₁ t₂ : String, ∃ n₁ n₂ : Nat,
      getField (serve p₁ Request.getRoot).body ("timestamp") = some (Json.str t₁) ∧
      getField (serve p₂ Request.getRoot).body ("timestamp") = some (Json.str t₂) ∧
      parseIsoTimestamp t₁ = some n₁ ∧ parseIsoTimestamp t₂ = some n₂ ∧ n₁ ≤ n₂ ∧
      ∃ q₁ q₂ : Rat,
        getField (serve p₁ Request.getInfo).body ("uptime") = some (Json.num q₁) ∧
        getField (serve p₂ Request.getInfo).body ("uptime") = some (Json.num q₂) ∧
        q₁ ≤ q₂ := by
  refine ⟨toISOString p₁.nowMs, toISOString p₂.nowMs, p₁.nowMs, p₂.nowMs, rfl, rfl,
    parseIso_toISOString p₁.nowMs hb₁, parseIso_toISOString p₂.nowMs hb₂, hseq,
    (p₁.uptimeMs : Rat) / 1000, (p₂.uptimeMs : Rat) / 1000, rfl, rfl, ?_⟩
  have hc : (p₁.uptimeMs : Rat) ≤ (p₂.uptimeMs : Rat) := by exact_mod_cast hup
  have h1000 : (0 : Rat) < 1000 := by norm_num
  exact div_le_div_iff_of_pos_right h1000 |>.mpr hc

/-- Claim C6, witness at a concrete process state (clock at the epoch). -/
theorem C6_witness :
    envZero.nowMs < 253402300800000 ∧
    (∃ t₁ t₂ : String, ∃ n₁ n₂ : Nat,
      getField (serve envZero Request.getRoot).body ("timestamp") = some (Json.str t₁) ∧
      getField (serve envZero Request.getRoot).body ("timestamp") = some (Json.str t₂) ∧
      parseIsoTimestamp t₁ = some n₁ ∧ parseIsoTimestamp t₂ = some n₂ ∧ n₁ ≤ n₂ ∧
      ∃ q₁ q₂ : Rat,
        getField (serve envZero Request.getInfo).body ("uptime") = some (Json.num q₁) ∧
        getField (serve envZero Request.getInfo).body ("uptime") = some (Json.num q₂) ∧
        q₁ ≤ q₂) :=
  ⟨by decide, C6_timestamps_parse_and_nondecrease envZero envZero (by decide) (by decide)
    (Nat.le_refl _) (Nat.le_refl _)⟩

/-- Claim C7: serving a request mutates no process-wide state: the state
component after handling is the input state itself, the response is exactly
the value computed by the route table from the ambient readings (and the
request body for the echo route), and a request served after another gets
the same response as if served first. -/
theorem C7_request_handling_pure (p : ProcessEnv) (req req₂ : Request) :
    (handle p req).2 = p ∧ (handle p req).1 = serve p req ∧
    serve (handle p req).2 req₂ = serve p req₂ :=
  ⟨rfl, rfl, rfl⟩

/-- Claim C8: a POST /api/echo request with no body, or with a body not
labelled with a JSON content type, is answered with HTTP 200 and received
equal to the empty object (express.json defaults req.body to the empty
object in both cases); a non-200 answer on the echo route occurs only for
a present, JSON-labelled body whose parse outcome the middleware
rejects. -/
theorem C8_missing_or_non_json_body_defaults (p : ProcessEnv)
    (hb ct : Bool) (pb : Option Json) (h : hb = false ∨ ct = false) :
    ((serve p (Request.postEcho hb ct pb)).status = 200 ∧
     getField (serve p (Request.postEcho hb ct pb)).body ("received") =
       some (Json.obj [])) ∧
    ∀ hb2 ct2 pb2, (serve p (Request.postEcho hb2 ct2 pb2)).status ≠ 200 →
      hb2 = true ∧ ct2 = true ∧ strictBodyOk pb2 = false := by
  have hmain : resolveEchoBody hb ct pb = Except.ok (Json.obj []) := by
    rcases h with h | h
    · subst h; rfl
    · subst h
      cases hb
      · rfl
      · rfl
  have hserve : serve p (Request.postEcho hb ct pb) = echoHandler p (Json.obj []) := by
    show (match resolveEchoBody hb ct pb with
      | Except.ok body => echoHandler p body
      | Except.error e => e) = echoHandler p (Json.obj [])
    rw [hmain]
  refine ⟨⟨?_, ?_⟩, ?_⟩
  · rw [hserve]
    rfl
  · rw [hserve]
    rfl
  · intro hb2 ct2 pb2 hne
    cases hb2
    · exact absurd rfl hne
    · cases ct2
      · exact absurd rfl hne
      · cases pb2 with
        | none => exact ⟨rfl, rfl, rfl⟩
        | some v =>
          cases hv : jsonStrictOk v with
          | false => exact ⟨rfl, rfl, hv⟩
          | true =>
            have h200 : (serve p (Request.postEcho true true (some v))).status = 200 := by
              have hres : resolveEchoBody true true (some v) = Except.ok v := by
                simp [resolveEchoBody, hv]
              show (match resolveEchoBody true true (some v) with
                | Except.ok body => echoHandler p body
                | Except.error e => e).status = 200
              rw [hres]
              rfl
            exact absurd h200 hne

/-- Claim C8, witness: a bodiless echo request against a concrete process
state. -/
theorem C8_witness :
    ((false : Bool) = false ∨ (true : Bool) = false) ∧
    (((serve envZero (Request.postEcho false true none)).status = 200 ∧
      getField (serve envZero (Request.postEcho false true none)).body ("received") =
        some (Json.obj [])) ∧
     ∀ hb2 ct2 pb2, (serve envZero (Request.postEcho hb2 ct2 pb2)).status ≠ 200 →
       hb2 = true ∧ ct2 = true ∧ strictBodyOk pb2 = false) :=
  ⟨Or.inl rfl, C8_missing_or_non_json_body_defaults envZero false true none (Or.inl rfl)⟩

/-- Claim C9: the constant identity fields agree across endpoints on every
call: the version fields of GET / and GET /api/info are both the string
1.0.0, and the service fields of GET /health and GET /api/info are both the
string node-devops-server. -/
theorem C9_constant_fields_agree (p q : ProcessEnv) :
    getField (serve p Request.getRoot).body ("version") =
      getField (serve q Request.getInfo).body ("version") ∧
    getField (serve p Request.getRoot).body ("version") = some (Json.str ("1.0.0")) ∧
    getField (serve p Request.getHealth).body ("service") =
      getField (serve q Request.getInfo).body ("service") ∧
    getField (serve p Request.getHealth).body ("service") =
      some (Json.str ("node-devops-server")) :=
  ⟨rfl, rfl, rfl, rfl⟩

/-- Claim C10: each handler is deterministic in its ambient inputs: two
process states agreeing on the wall-clock reading, the uptime reading, the
memory statistics, the platform, the runtime version and the environment
give identical responses for any request (the parsed body being part of the
request). -/
theorem C10_handlers_deterministic (p₁ p₂ : ProcessEnv) (req : Request)
    (h1 : p₁.nowMs = p₂.nowMs) (h2 : p₁.uptimeMs = p₂.uptimeMs)
    (h3 : p₁.memoryUsage = p₂.memoryUsage) (h4 : p₁.platform = p₂.platform)
    (h5 : p₁.nodeVersion = p₂.nodeVersion) (h6 : p₁.envVars = p₂.envVars) :
    serve p₁ req = serve p₂ req := by
  obtain ⟨a1, a2, a3, a4, a5, a6⟩ := p₁
  obtain ⟨b1, b2, b3, b4, b5, b6⟩ := p₂
  have g1 : a1 = b1 := h1
  have g2 : a2 = b2 := h2
  have g3 : a3 = b3 := h3
  have g4 : a4 = b4 := h4
  have g5 : a5 = b5 := h5
  have g6 : a6 = b6 := h6
  subst g1; subst g2; subst g3; subst g4; subst g5; subst g6
  rfl

/-- Claim C10, witness: the statement applied to two copies of the same
concrete process state. -/
theorem C10_witness :
    envZero.nowMs = envZero.nowMs ∧
    serve envZero Request.getInfo = serve envZero Request.getInfo :=
  ⟨rfl, C10_handlers_deterministic envZero envZero Request.getInfo rfl rfl rfl rfl rfl rfl⟩
